import Mathlib

/-!
Verification development for the StopperTech service-request and payment
backend.  The payment flow exists in two variants in the repository:
`src/backend/server.js` (the basic variant, suffix `_server` below) and the
enhanced unnamed server file (suffix `_part001` below).  Pure fragments of
both variants are embedded as executable Lean definitions; external I/O
(MongoDB, axios HTTP calls) is modelled by explicit state passing (the store
is a list of records) and oracle parameters carrying the outcome the remote
side would produce, together with flags recording whether an outbound
request was issued at all.
-/

namespace StopperTech

/-- A JavaScript runtime value, as far as the payment flow inspects one:
`ResultCode` / `ResponseCode` fields of provider payloads can arrive as a
number, a string, `null`, `undefined` or a boolean.  JavaScript strict
equality `===` on these values is Lean equality on this type. -/
inductive JVal where
  | num (n : Int)
  | str (s : String)
  | jnull
  | undef
  | jbool (b : Bool)
deriving Repr, DecidableEq

/-- JavaScript truthiness of an optional string (`undefined` and `""` are
falsy; every other string is truthy). -/
def truthyOpt : Option String → Bool
  | none => false
  | some s => !(s == "")

/-- JavaScript `a || b` for an optional string `a` and default `b`:
returns `b` when `a` is `undefined` or the empty string. -/
def orFalsy (a : Option String) (b : String) : String :=
  match a with
  | none => b
  | some s => if s == "" then b else s

/-- `phone.replace(/\D/g, '')`: keep only the digit characters. -/
def stripNonDigits (s : String) : String :=
  String.mk (s.data.filter Char.isDigit)

/-- `s.startsWith(p)`, computed on the character lists. -/
def strStartsWith (s p : String) : Bool :=
  p.data.isPrefixOf s.data

/-- `s.substring(n)`, computed on the character list. -/
def strDrop (s : String) (n : Nat) : String :=
  String.mk (s.data.drop n)

/-- The regex test `/^[0-9]{9}$/.test(s)`. -/
def matches9Digits (s : String) : Bool :=
  s.length == 9 && s.data.all Char.isDigit

/-- The regex test `/^254[0-9]{9}$/.test(s)`: the literal `254` followed by
exactly nine digits (so twelve digit characters in total). -/
def matches254Format (s : String) : Bool :=
  s.length == 12 && strStartsWith s "254" && s.data.all Char.isDigit

/-- A `ServiceRequest` document (mongoose schema in both server variants).
`serviceDetails` is a Mixed object in the schema; the payment flow never
inspects it, so it is carried as an opaque string.  `paymentReference` is
absent until payment initiation stores the provider correlation id. -/
structure ServiceRequest where
  id : String
  serviceType : String
  subService : String
  fullName : String
  email : String
  phone : String
  nationalId : String
  serviceDetails : String
  amount : Int
  paymentStatus : String
  paymentReference : Option String
  status : String
deriving Repr, DecidableEq

/-- Mutate the first record of the list satisfying `p` with `f`, leaving the
rest unchanged: the model of `findOne`/`findById` followed by field
assignments and `save()`. -/
def updateFirst (p : α → Bool) (f : α → α) : List α → List α
  | [] => []
  | a :: l => if p a then f a :: l else a :: updateFirst p f l

/-- The callback reconciler's lookup predicate:
`ServiceRequest.findOne({ paymentReference: CheckoutRequestID })`. -/
def refMatches (cid : String) (r : ServiceRequest) : Bool :=
  r.paymentReference == some cid

/-- `ServiceRequest.findOne({ paymentReference: cid })` over the store. -/
def findOneByRef (cid : String) (store : List ServiceRequest) :
    Option ServiceRequest :=
  store.find? (refMatches cid)

/-- The nested `Body.stkCallback` object of a provider callback payload.
`ResultCode` is kept as a raw JavaScript value because the handler compares
it with strict equality. -/
structure StkCallback where
  CheckoutRequestID : String
  ResultCode : JVal
  ResultDesc : String
deriving Repr, DecidableEq

/-- The `Body` wrapper of the callback payload; `stkCallback` may be absent. -/
structure CallbackBody where
  stkCallback : Option StkCallback
deriving Repr, DecidableEq

/-- The callback request body; `Body` itself may be absent. -/
structure CallbackReq where
  Body : Option CallbackBody
deriving Repr, DecidableEq

/-- Outcome of an API handler: the HTTP status code sent and the store
after the handler ran. -/
structure ApiOutcome where
  statusCode : Nat
  store : List ServiceRequest
deriving Repr, DecidableEq

/-- The field assignments the callback handler performs on the matched
record: `ResultCode === 0` sets `paymentStatus = 'completed'` and
`status = 'processing'`; every other value sets `paymentStatus = 'failed'`
and leaves `status` alone.  (Identical in both server variants.) -/
def applyCallback (cb : StkCallback) (sr : ServiceRequest) : ServiceRequest :=
  if cb.ResultCode = JVal.num 0 then
    { sr with paymentStatus := "completed", status := "processing" }
  else
    { sr with paymentStatus := "failed" }

/-- `POST /api/mpesa/callback` (identical in both server variants):
reject 400 when `Body` or `Body.stkCallback` is absent; 404 when no stored
record carries the payload's `CheckoutRequestID` as `paymentReference`;
otherwise overwrite the matched record per `applyCallback` and answer 200. -/
def mpesaCallback (store : List ServiceRequest) (req : CallbackReq) :
    ApiOutcome :=
  match req.Body with
  | none => ⟨400, store⟩
  | some b =>
    match b.stkCallback with
    | none => ⟨400, store⟩
    | some cb =>
      match findOneByRef cb.CheckoutRequestID store with
      | none => ⟨404, store⟩
      | some _ =>
        ⟨200, updateFirst (refMatches cb.CheckoutRequestID)
                (applyCallback cb) store⟩

/-! ### Phone number handling -/

/-- The frontend `ServiceFormHandler.formatPhoneNumber`
(`src/frontend/js/service-form.js`): strip non-digits, then turn a leading
`0` into `254`, keep a string already starting with `254`, and prepend
`254` to a string starting with `7` or `1`; anything else passes through
unchanged.  It never rejects — a separate regex check in
`validateFormData` rejects results not matching `254` + nine digits. -/
def formatPhoneNumber (phone : String) : String :=
  let p := stripNonDigits phone
  if strStartsWith p "0" then "254" ++ strDrop p 1
  else if strStartsWith p "254" then p
  else if strStartsWith p "7" || strStartsWith p "1" then "254" ++ p
  else p

/-- The backend auto-format step of `POST /api/initiate-payment` in
`src/backend/server.js`: an exactly-nine-digit input gets `254` prepended;
an input already matching `254` + nine digits passes through; everything
else is rejected (`none`, the handler answers 400).  No stripping of
non-digit characters and no leading-zero handling happen here. -/
def serverFormatPhone (phone : String) : Option String :=
  if matches9Digits phone then some ("254" ++ phone)
  else if !matches254Format phone then none
  else some phone

/-- The spec's normalizer (section 4.5), written from the spec's words for
comparison with the code: strip non-digits; a single leading zero becomes
`254`; a string already starting with `254` is accepted as-is; an
exactly-nine-digit bare number gets `254` prepended; otherwise reject; and
the final result must match `254` + nine digits or the input is rejected. -/
def normalizeSpec (raw : String) : Option String :=
  let d := stripNonDigits raw
  let r :=
    if strStartsWith d "0" then some ("254" ++ strDrop d 1)
    else if strStartsWith d "254" then some d
    else if d.length == 9 then some ("254" ++ d)
    else none
  match r with
  | some v => if matches254Format v then some v else none
  | none => none

/-! ### Static pricing catalog (`SERVICE_PRICING` in `src/backend/server.js`) -/

/-- Catalog entries for one service type, as `(subService, price)` pairs. -/
def catalogEntries : String → List (String × Int)
  | "KRA" =>
    [("PIN Registration", 500), ("PIN Certificate Retrieval", 300),
     ("PIN Update", 400), ("PIN Email Address Change", 350)]
  | "SHA" =>
    [("SHA Registration", 400), ("SHA Certificate Retrieval", 300),
     ("SHA Mobile Number Update", 250), ("SHA Beneficiary Management", 450)]
  | "NSSF" =>
    [("NSSF Registration", 450), ("NSSF Certificate Retrieval", 300),
     ("NSSF Statement Request", 200), ("NSSF Benefits Claims", 600)]
  | "NTSA" =>
    [("Driving License Application", 800), ("Vehicle Registration", 700),
     ("PSV License Application", 900), ("Logbook Services", 600)]
  | "HELB" =>
    [("HELB Loan Application", 600), ("HELB Statement Request", 250),
     ("HELB Clearance Certificate", 400), ("HELB Account Management", 500)]
  | "GHRIS" =>
    [("GHRIS Registration", 500), ("Payslip Access", 200),
     ("Leave Application", 300), ("Employee Records Management", 450)]
  | "TSC" =>
    [("TSC Registration", 550), ("Teacher Certification", 600),
     ("Transfer Applications", 500), ("Professional Development", 400)]
  | "OS_SOFTWARE" =>
    [("Windows 10 Installation", 1500), ("Windows 11 Installation", 1800),
     ("Linux Installation", 1200), ("Antivirus Setup", 300),
     ("Premium Antivirus", 2500), ("MS Office 2019", 1500),
     ("MS Office 2021", 2000), ("System Optimization", 1000),
     ("Driver Updates", 800), ("Custom Software Installation", 500)]
  | "COMPUTER_REPAIR" =>
    [("Virus Removal", 800), ("Advanced Malware Removal", 1200),
     ("Hardware Diagnosis", 500), ("Component Replacement", 800),
     ("Data Recovery", 1500), ("Hard Drive Recovery", 3000),
     ("Screen Replacement 14\"", 8000), ("Screen Replacement 15.6\"", 9500),
     ("RAM Upgrade", 4500), ("SSD Installation", 6000),
     ("System Cleanup", 800), ("Emergency Repair", 1300)]
  | "CYBER_CAFE" =>
    [("Internet Browsing (1 Hour)", 50), ("Internet Browsing (2 Hours)", 90),
     ("Internet Browsing (Half Day)", 200),
     ("Internet Browsing (Full Day)", 350),
     ("Document Typing (Per Page)", 50),
     ("Document Printing (Black & White)", 10),
     ("Document Printing (Color)", 20), ("Document Scanning", 20),
     ("Photocopying (Per Page)", 5), ("Email Services", 30),
     ("CV Writing", 300), ("Application Letter Writing", 200),
     ("Research Services (Per Hour)", 100), ("Online Form Filling", 150),
     ("Social Media Management", 200),
     ("Video Conferencing (Per Hour)", 100),
     ("File Transfer Services", 50), ("USB/Flash Disk Services", 30),
     ("CD/DVD Burning", 100), ("Lamination (A4)", 50),
     ("Lamination (A3)", 80), ("Binding Services", 100),
     ("Passport Photo Printing", 100)]
  | "ONLINE_SHOPPING" =>
    [("Account Setup", 200), ("Address Book", 150),
     ("Shopping Assistance", 300), ("Order Tracking", 100),
     ("Pickup Service", 100), ("Complete Package", 500)]
  | _ => []

/-- `SERVICE_PRICING[serviceType]?.[subService]`: the in-process static
catalog lookup; `none` models `undefined`. -/
def SERVICE_PRICING (serviceType subService : String) : Option Int :=
  (catalogEntries serviceType).lookup subService

/-- One document of the `ServicePricing` collection, the persisted price
override store. -/
structure PricingEntry where
  serviceType : String
  subService : String
  price : Int
deriving Repr, DecidableEq

/-- `ServicePricing.findOne({ serviceType, subService })` over the override
store, returning the stored price. -/
def pricingFindOne (db : List PricingEntry) (st sub : String) : Option Int :=
  (db.find? (fun e => e.serviceType == st && e.subService == sub)).map
    (fun e => e.price)

/-- Amount resolution in `POST /api/service-request`
(`src/backend/server.js`): the override store is consulted first
(`pricingDoc ? pricingDoc.price : SERVICE_PRICING[...]`); when the override
store has no entry, or the database read threw (`dbFails`), the static
catalog is the fallback. -/
def resolvedAmount (db : List PricingEntry) (dbFails : Bool)
    (st sub : String) : Option Int :=
  if dbFails then SERVICE_PRICING st sub
  else
    match pricingFindOne db st sub with
    | some p => some p
    | none => SERVICE_PRICING st sub

/-! ### Access-token fetch (`getDarajaAccessToken`, both variants)

The HTTP exchange itself is external; each fetcher takes an oracle
describing the outcome the provider would give if contacted, and returns
the function result together with a flag recording whether the outbound
OAuth request was issued at all. -/

/-- The Daraja credentials part of `DARAJA_CONFIG`; `none` models an unset
environment variable. -/
structure DarajaConfig where
  consumerKey : Option String
  consumerSecret : Option String
deriving Repr, DecidableEq

/-- Response body of the OAuth endpoint: `access_token` may be absent. -/
structure TokenRespData where
  access_token : Option String
deriving Repr, DecidableEq

/-- Outcome of the OAuth HTTP call, had it been made: a 2xx response with a
body, or an axios error carrying a message. -/
inductive TokenHttpOutcome where
  | ok (data : TokenRespData)
  | err (msg : String)
deriving Repr, DecidableEq

/-- `getDarajaAccessToken` in `src/backend/server.js`: builds basic auth
from the configured key and secret — with no presence check — and performs
the GET unconditionally, returning `response.data.access_token` as-is
(possibly absent) and mapping any error to a generic message.  The boolean
records that the provider was contacted (always, in this variant). -/
def getDarajaAccessToken_server (_cfg : DarajaConfig)
    (resp : TokenHttpOutcome) : Except String (Option String) × Bool :=
  match resp with
  | .ok d => (.ok d.access_token, true)
  | .err _ => (.error "Failed to get access token", true)

/-- `getDarajaAccessToken` in the enhanced variant: when the consumer key
or secret is falsy it throws before any HTTP request; otherwise it performs
the GET, accepts only a truthy `access_token` (else the inner throw is
re-wrapped by the catch), and prefixes caught error messages with
`Failed to get access token: `. -/
def getDarajaAccessToken_part001 (cfg : DarajaConfig)
    (resp : TokenHttpOutcome) : Except String (Option String) × Bool :=
  if !truthyOpt cfg.consumerKey || !truthyOpt cfg.consumerSecret then
    (.error "Missing Daraja API credentials. Please check DARAJA_CONSUMER_KEY and DARAJA_CONSUMER_SECRET environment variables.", false)
  else
    match resp with
    | .ok d =>
      if truthyOpt d.access_token then (.ok d.access_token, true)
      else
        (.error "Failed to get access token: Invalid response format from Daraja API", true)
    | .err msg => (.error ("Failed to get access token: " ++ msg), true)

/-! ### STK Push (`initiateStkPush`, both variants) -/

/-- Response body of the STK Push endpoint (also reused as the error body
of a non-2xx response).  `ResponseCode` is a raw JavaScript value
(`JVal.undef` when the field is absent); the remaining fields are the ones
the enhanced variant reads when building error messages. -/
structure StkRespData where
  ResponseCode : JVal
  CheckoutRequestID : String
  MerchantRequestID : String
  errorMessage : Option String
  ResponseDescription : Option String
  errorCode : Option String
deriving Repr, DecidableEq

/-- Outcome of the STK Push HTTP call, had it been made: a 2xx response
with a body, a non-2xx response with an error body (`error.response`), or
no response at all (`error.request`, e.g. a timeout). -/
inductive PushHttpOutcome where
  | ok (data : StkRespData)
  | respError (data : StkRespData)
  | reqError
deriving Repr, DecidableEq

/-- Which outbound provider calls a code path issued. -/
structure Effects where
  tokenFetched : Bool
  stkPushSent : Bool
deriving Repr, DecidableEq

/-- `initiateStkPush` in `src/backend/server.js`: fetch a token, send the
push, and return `response.data` unchanged on any 2xx response — the
`ResponseCode` inside the body is never inspected.  Every failure is
collapsed by the catch into the generic message. -/
def initiateStkPush_server (tokenResult : Except String (Option String))
    (push : PushHttpOutcome) : Except String StkRespData × Effects :=
  match tokenResult with
  | .error _ => (.error "Failed to initiate payment", ⟨true, false⟩)
  | .ok _ =>
    match push with
    | .ok d => (.ok d, ⟨true, true⟩)
    | .respError _ => (.error "Failed to initiate payment", ⟨true, true⟩)
    | .reqError => (.error "Failed to initiate payment", ⟨true, true⟩)

/-- Configuration checks the enhanced `initiateStkPush` performs locally:
the outcome of `validateCallbackUrl` and the presence of the passkey. -/
structure Part001Config where
  callbackUrlValid : Bool
  passkeyPresent : Bool
deriving Repr, DecidableEq

/-- Error message for a non-2xx push response in the enhanced variant:
`STK Push failed: ${errorMessage || ResponseDescription || errorCode ||
'Server error'}`. -/
def pushRespErrorMsg (d : StkRespData) : String :=
  "STK Push failed: " ++
    orFalsy d.errorMessage
      (orFalsy d.ResponseDescription (orFalsy d.errorCode "Server error"))

/-- Error message for a 2xx push response whose code is not zero in the
enhanced variant: the inner
`throw new Error(errorMessage || ResponseDescription || errorCode ||
'STK Push request failed')` is a plain `Error` (no `response`/`request`
field), so the catch re-wraps it as `STK Push setup error: ...`. -/
def badCodeErrorMsg (d : StkRespData) : String :=
  "STK Push setup error: " ++
    orFalsy d.errorMessage
      (orFalsy d.ResponseDescription
        (orFalsy d.errorCode "STK Push request failed"))

/-- `initiateStkPush` in the enhanced variant: validate the callback URL
before anything else, fetch a fresh token, check the passkey, send the
push, and treat the response as success exactly when
`ResponseCode === '0' || ResponseCode === 0`; every other 2xx body, and
every HTTP error, becomes a thrown error carrying the provider's message
when one is available.  Token-fetch errors and the local validation throws
are plain `Error`s, so the catch re-wraps them as setup errors. -/
def initiateStkPush_part001 (cfg : Part001Config)
    (tokenResult : Except String (Option String))
    (push : PushHttpOutcome) : Except String StkRespData × Effects :=
  if !cfg.callbackUrlValid then
    (.error "STK Push setup error: Invalid callback URL", ⟨false, false⟩)
  else
    match tokenResult with
    | .error e => (.error ("STK Push setup error: " ++ e), ⟨true, false⟩)
    | .ok _ =>
      if !cfg.passkeyPresent then
        (.error "STK Push setup error: Missing Daraja passkey. Please check DARAJA_PASSKEY environment variable.", ⟨true, false⟩)
      else
        match push with
        | .ok d =>
          if d.ResponseCode = JVal.str "0" ∨ d.ResponseCode = JVal.num 0 then
            (.ok d, ⟨true, true⟩)
          else
            (.error (badCodeErrorMsg d), ⟨true, true⟩)
        | .respError d => (.error (pushRespErrorMsg d), ⟨true, true⟩)
        | .reqError =>
          (.error "Network error: Unable to reach Safaricom servers",
           ⟨true, true⟩)

/-! ### `POST /api/initiate-payment` (both variants) -/

/-- Outcome of the initiate-payment handler: HTTP status, resulting store,
and which outbound provider calls were made. -/
structure InitOutcome where
  statusCode : Nat
  store : List ServiceRequest
  effects : Effects
deriving Repr, DecidableEq

/-- Lookup predicate of `ServiceRequest.findById(serviceRequestId)`. -/
def idMatches (sid : String) (r : ServiceRequest) : Bool :=
  r.id == sid

/-- Field assignment of the initiation success path:
`serviceRequest.paymentReference = stkPushResponse.CheckoutRequestID`
followed by `save()`. -/
def setPaymentReference (cid : String) (r : ServiceRequest) : ServiceRequest :=
  { r with paymentReference := some cid }

/-- `POST /api/initiate-payment` in `src/backend/server.js`: validate
presence of both body fields, find the request, reject an
already-completed payment with 400 before anything else, auto-format the
phone number (nine digits get `254` prepended, `254` + nine digits passes,
anything else is 400), then run `initiateStkPush`; on its success persist
the `CheckoutRequestID` and answer 200, on its failure answer 500 with the
store untouched.  `tokenResult` and `push` are the oracle outcomes of the
provider calls, consumed only if the push is reached. -/
def initiatePayment_server (store : List ServiceRequest)
    (serviceRequestId phoneNumber : Option String)
    (tokenResult : Except String (Option String))
    (push : PushHttpOutcome) : InitOutcome :=
  if !truthyOpt serviceRequestId || !truthyOpt phoneNumber then
    ⟨400, store, ⟨false, false⟩⟩
  else
    match store.find? (idMatches (serviceRequestId.getD "")) with
    | none => ⟨404, store, ⟨false, false⟩⟩
    | some sr =>
      if sr.paymentStatus == "completed" then
        ⟨400, store, ⟨false, false⟩⟩
      else if !matches9Digits (phoneNumber.getD "") &&
          !matches254Format (phoneNumber.getD "") then
        ⟨400, store, ⟨false, false⟩⟩
      else
        match initiateStkPush_server tokenResult push with
        | (.ok d, fx) =>
          ⟨200, updateFirst (idMatches (serviceRequestId.getD ""))
                  (setPaymentReference d.CheckoutRequestID) store, fx⟩
        | (.error _, fx) => ⟨500, store, fx⟩

/-- `POST /api/initiate-payment` in the enhanced variant: same shape, but
the phone number must already match `254` + nine digits (no auto-format),
and the push goes through the enhanced `initiateStkPush`. -/
def initiatePayment_part001 (store : List ServiceRequest)
    (serviceRequestId phoneNumber : Option String) (cfg : Part001Config)
    (tokenResult : Except String (Option String))
    (push : PushHttpOutcome) : InitOutcome :=
  if !truthyOpt serviceRequestId || !truthyOpt phoneNumber then
    ⟨400, store, ⟨false, false⟩⟩
  else
    match store.find? (idMatches (serviceRequestId.getD "")) with
    | none => ⟨404, store, ⟨false, false⟩⟩
    | some sr =>
      if sr.paymentStatus == "completed" then
        ⟨400, store, ⟨false, false⟩⟩
      else if !matches254Format (phoneNumber.getD "") then
        ⟨400, store, ⟨false, false⟩⟩
      else
        match initiateStkPush_part001 cfg tokenResult push with
        | (.ok d, fx) =>
          ⟨200, updateFirst (idMatches (serviceRequestId.getD ""))
                  (setPaymentReference d.CheckoutRequestID) store, fx⟩
        | (.error _, fx) => ⟨500, store, fx⟩

/-! ### `POST /api/service-request` and the status-update endpoint -/

/-- The request body of `POST /api/service-request`.  The handler
destructures only the seven named fields; `clientAmount` models an
`amount` property a client might also send — the code never reads it. -/
structure SRBody where
  serviceType : String
  subService : String
  fullName : String
  email : String
  phone : String
  nationalId : String
  serviceDetails : String
  clientAmount : Option Int
deriving Repr, DecidableEq

/-- The record `new ServiceRequest({...})` builds on the creation path:
the seven client fields plus the catalog-resolved amount; schema defaults
supply `paymentStatus = 'pending'`, `status = 'submitted'` and no
`paymentReference`. -/
def mkServiceRequest (freshId : String) (b : SRBody) (a : Int) :
    ServiceRequest :=
  { id := freshId, serviceType := b.serviceType, subService := b.subService,
    fullName := b.fullName, email := b.email, phone := b.phone,
    nationalId := b.nationalId, serviceDetails := b.serviceDetails,
    amount := a, paymentStatus := "pending", paymentReference := none,
    status := "submitted" }

/-- `POST /api/service-request` in `src/backend/server.js`: reject 400 when
any of the seven destructured fields is falsy; resolve the amount from the
override store with static-catalog fallback; reject 400 when the resolved
amount is falsy (`undefined` or `0`); otherwise append the new record
(id assigned by the database, here `freshId`) and answer 201. -/
def serviceRequestHandler (store : List ServiceRequest) (freshId : String)
    (db : List PricingEntry) (dbFails : Bool) (b : SRBody) : ApiOutcome :=
  if b.serviceType == "" || b.subService == "" || b.fullName == "" ||
      b.email == "" || b.phone == "" || b.nationalId == "" ||
      b.serviceDetails == "" then
    ⟨400, store⟩
  else
    match resolvedAmount db dbFails b.serviceType b.subService with
    | none => ⟨400, store⟩
    | some a =>
      if a == 0 then ⟨400, store⟩
      else ⟨201, store ++ [mkServiceRequest freshId b a]⟩

/-- `PUT /api/service-request/:id/status` in `src/backend/server.js`:
reject 400 unless the body's `status` is one of the four allowed values;
404 when the id is unknown; otherwise overwrite only the `status` field of
the matched record. -/
def updateStatusHandler (store : List ServiceRequest) (sid : String)
    (newStatus : Option String) : ApiOutcome :=
  match newStatus with
  | none => ⟨400, store⟩
  | some st =>
    if !(["submitted", "processing", "completed", "cancelled"].contains st)
    then ⟨400, store⟩
    else
      match store.find? (idMatches sid) with
      | none => ⟨404, store⟩
      | some _ =>
        ⟨200, updateFirst (idMatches sid)
                (fun r => { r with status := st }) store⟩

/-! ### Field masks used to state frame conditions -/

/-- Erase the `paymentReference` field: two stores equal under this mask
differ at most in `paymentReference`. -/
def maskPaymentReference (r : ServiceRequest) : ServiceRequest :=
  { r with paymentReference := none }

/-- Erase the `paymentStatus` and `status` fields. -/
def maskOutcomeFields (r : ServiceRequest) : ServiceRequest :=
  { r with paymentStatus := "", status := "" }

/-- Erase the `status` field. -/
def maskStatus (r : ServiceRequest) : ServiceRequest :=
  { r with status := "" }

/-! ### Concrete records used to instantiate the theorems -/

/-- A stored request with a pending payment and a stored correlation id. -/
def srPending1 : ServiceRequest :=
  { id := "id1", serviceType := "KRA", subService := "PIN Registration",
    fullName := "Jane Doe", email := "jane@example.com",
    phone := "254712345678", nationalId := "12345678",
    serviceDetails := "details", amount := 500,
    paymentStatus := "pending", paymentReference := some "REF1",
    status := "submitted" }

/-- A stored request with a pending payment and no correlation id yet. -/
def srPendingNoRef : ServiceRequest :=
  { srPending1 with paymentReference := none }

/-- A stored request whose payment already completed. -/
def srCompleted1 : ServiceRequest :=
  { srPending1 with paymentStatus := "completed", status := "processing" }

/-- A callback payload reporting success (numeric result code 0). -/
def cb0 : StkCallback :=
  { CheckoutRequestID := "REF1", ResultCode := JVal.num 0,
    ResultDesc := "Success" }

/-- A callback payload reporting a business failure (result code 1). -/
def cb1 : StkCallback :=
  { CheckoutRequestID := "REF1", ResultCode := JVal.num 1,
    ResultDesc := "Request cancelled by user" }

/-- A callback payload whose result code is the string `"0"`. -/
def cbStr0 : StkCallback :=
  { CheckoutRequestID := "REF1", ResultCode := JVal.str "0",
    ResultDesc := "Success" }

/-- A 2xx push response accepted by the provider (code 0). -/
def respOk0 : StkRespData :=
  { ResponseCode := JVal.num 0, CheckoutRequestID := "ws_CO_1",
    MerchantRequestID := "mr1", errorMessage := none,
    ResponseDescription := none, errorCode := none }

/-- An override-store entry used to instantiate the C9 theorem. -/
def pe1 : PricingEntry :=
  { serviceType := "KRA", subService := "PIN Registration", price := 999 }

/-- A 2xx push response carrying a non-zero response code. -/
def respBadCode : StkRespData :=
  { respOk0 with
    ResponseCode := JVal.num 1
    CheckoutRequestID := "ws_CO_BAD" }

/-! ### Helper lemmas -/

theorem applyCallback_paymentReference (cb : StkCallback)
    (sr : ServiceRequest) :
    (applyCallback cb sr).paymentReference = sr.paymentReference := by
  unfold applyCallback
  split <;> rfl

theorem applyCallback_amount (cb : StkCallback) (sr : ServiceRequest) :
    (applyCallback cb sr).amount = sr.amount := by
  unfold applyCallback
  split <;> rfl

theorem applyCallback_mask (cb : StkCallback) (sr : ServiceRequest) :
    maskOutcomeFields (applyCallback cb sr) = maskOutcomeFields sr := by
  unfold applyCallback maskOutcomeFields
  split <;> rfl

theorem applyCallback_idem (cb : StkCallback) (sr : ServiceRequest) :
    applyCallback cb (applyCallback cb sr) = applyCallback cb sr := by
  unfold applyCallback
  split <;> rfl

theorem find?_updateFirst (p : α → Bool) (f : α → α) (l : List α) (x : α)
    (hx : l.find? p = some x) (hfx : p (f x) = true) :
    (updateFirst p f l).find? p = some (f x) := by
  induction l with
  | nil => simp [List.find?] at hx
  | cons a t ih =>
    by_cases hpa : p a = true
    · rw [List.find?_cons_of_pos _ hpa] at hx
      injection hx with hx
      subst hx
      simp [updateFirst, hpa, List.find?_cons_of_pos _ hfx]
    · have hpa' : p a = false := by
        cases h : p a
        · rfl
        · exact absurd h hpa
      rw [List.find?_cons_of_neg _ (by simp [hpa'])] at hx
      simp [updateFirst, hpa', List.find?_cons_of_neg, ih hx]

theorem updateFirst_idem (p : α → Bool) (f : α → α) (l : List α)
    (hpf : ∀ x, p x = true → p (f x) = true)
    (hff : ∀ x, f (f x) = f x) :
    updateFirst p f (updateFirst p f l) = updateFirst p f l := by
  induction l with
  | nil => rfl
  | cons a t ih =>
    by_cases hpa : p a = true
    · simp [updateFirst, hpa, hpf a hpa, hff a]
    · have hpa' : p a = false := by
        cases h : p a
        · rfl
        · exact absurd h hpa
      simp [updateFirst, hpa', ih]

theorem map_updateFirst (p : α → Bool) (f : α → α) (g : α → β) (l : List α)
    (hgf : ∀ x, g (f x) = g x) :
    (updateFirst p f l).map g = l.map g := by
  induction l with
  | nil => rfl
  | cons a t ih =>
    by_cases hpa : p a = true
    · simp [updateFirst, hpa, hgf a]
    · have hpa' : p a = false := by
        cases h : p a
        · rfl
        · exact absurd h hpa
      simp [updateFirst, hpa', ih]

theorem initiatePayment_server_store_shape (s : List ServiceRequest)
    (sid ph : Option String) (tok : Except String (Option String))
    (push : PushHttpOutcome) :
    (initiatePayment_server s sid ph tok push).store = s ∨
    ∃ c, (initiatePayment_server s sid ph tok push).store =
      updateFirst (idMatches (sid.getD "")) (setPaymentReference c) s := by
  unfold initiatePayment_server
  split
  · exact Or.inl rfl
  · split
    · exact Or.inl rfl
    · split
      · exact Or.inl rfl
      · split
        · exact Or.inl rfl
        · split
          · exact Or.inr ⟨_, rfl⟩
          · exact Or.inl rfl

theorem initiatePayment_part001_store_shape (s : List ServiceRequest)
    (sid ph : Option String) (cfg : Part001Config)
    (tok : Except String (Option String)) (push : PushHttpOutcome) :
    (initiatePayment_part001 s sid ph cfg tok push).store = s ∨
    ∃ c, (initiatePayment_part001 s sid ph cfg tok push).store =
      updateFirst (idMatches (sid.getD "")) (setPaymentReference c) s := by
  unfold initiatePayment_part001
  split
  · exact Or.inl rfl
  · split
    · exact Or.inl rfl
    · split
      · exact Or.inl rfl
      · split
        · exact Or.inl rfl
        · split
          · exact Or.inr ⟨_, rfl⟩
          · exact Or.inl rfl

theorem mpesaCallback_store_shape (s : List ServiceRequest)
    (req : CallbackReq) :
    (mpesaCallback s req).store = s ∨
    ∃ cb, req.Body = some ⟨some cb⟩ ∧
      (mpesaCallback s req).store =
        updateFirst (refMatches cb.CheckoutRequestID) (applyCallback cb) s := by
  unfold mpesaCallback
  split
  · exact Or.inl rfl
  · next bod hbod =>
    obtain ⟨bsc⟩ := bod
    split
    · exact Or.inl rfl
    · next cb hcb =>
      split
      · exact Or.inl rfl
      · refine Or.inr ⟨cb, ?_, rfl⟩
        rw [hbod]
        simp only [CallbackBody.mk.injEq, Option.some.injEq]
        exact hcb

theorem updateStatusHandler_store_shape (s : List ServiceRequest)
    (sid : String) (st : Option String) :
    (updateStatusHandler s sid st).store = s ∨
    ∃ v, (updateStatusHandler s sid st).store =
      updateFirst (idMatches sid) (fun r => { r with status := v }) s := by
  unfold updateStatusHandler
  split
  · exact Or.inl rfl
  · split
    · exact Or.inl rfl
    · split
      · exact Or.inl rfl
      · exact Or.inr ⟨_, rfl⟩

theorem serviceRequestHandler_store_shape (s : List ServiceRequest)
    (fid : String) (db : List PricingEntry) (dbf : Bool) (b : SRBody) :
    (serviceRequestHandler s fid db dbf b).store = s ∨
    ∃ a, resolvedAmount db dbf b.serviceType b.subService = some a ∧
      (serviceRequestHandler s fid db dbf b).store =
        s ++ [mkServiceRequest fid b a] := by
  unfold serviceRequestHandler
  split
  · exact Or.inl rfl
  · split
    · exact Or.inl rfl
    · next a ha =>
      split
      · exact Or.inl rfl
      · exact Or.inr ⟨a, ha, rfl⟩

theorem mpesaCallback_reduce (s : List ServiceRequest) (cb : StkCallback) :
    mpesaCallback s ⟨some ⟨some cb⟩⟩ =
      match findOneByRef cb.CheckoutRequestID s with
      | none => ⟨404, s⟩
      | some _ =>
        ⟨200, updateFirst (refMatches cb.CheckoutRequestID)
                (applyCallback cb) s⟩ := rfl

theorem refMatches_applyCallback (cid : String) (cb : StkCallback)
    (r : ServiceRequest) (h : refMatches cid r = true) :
    refMatches cid (applyCallback cb r) = true := by
  unfold refMatches at h ⊢
  rw [applyCallback_paymentReference]
  exact h

/-! ### Claim theorems -/

/-- Claim C1: for every structurally valid callback payload whose
correlation id matches the stored `paymentReference` of some request — with
a numeric result code, as the provider sends — the reconciler answers 200
and updates that request: result code 0 sets `paymentStatus = "completed"`
and advances `status` to `"processing"`; any non-zero result code sets
`paymentStatus = "failed"` and leaves `status` unchanged. -/
theorem C1_callback_reconciliation (store : List ServiceRequest)
    (cb : StkCallback) (sr : ServiceRequest) (n : Int)
    (hrc : cb.ResultCode = JVal.num n)
    (hfind : findOneByRef cb.CheckoutRequestID store = some sr) :
    (mpesaCallback store ⟨some ⟨some cb⟩⟩).statusCode = 200 ∧
    findOneByRef cb.CheckoutRequestID
        (mpesaCallback store ⟨some ⟨some cb⟩⟩).store =
      some (applyCallback cb sr) ∧
    (n = 0 → (applyCallback cb sr).paymentStatus = "completed" ∧
      (applyCallback cb sr).status = "processing") ∧
    (n ≠ 0 → (applyCallback cb sr).paymentStatus = "failed" ∧
      (applyCallback cb sr).status = sr.status) := by
  have hpx : refMatches cb.CheckoutRequestID sr = true := List.find?_some hfind
  have hpfx := refMatches_applyCallback cb.CheckoutRequestID cb sr hpx
  have hout : mpesaCallback store ⟨some ⟨some cb⟩⟩ =
      ⟨200, updateFirst (refMatches cb.CheckoutRequestID)
              (applyCallback cb) store⟩ := by
    rw [mpesaCallback_reduce, hfind]
  refine ⟨by rw [hout], ?_, ?_, ?_⟩
  · rw [hout]
    exact find?_updateFirst _ _ _ _ hfind hpfx
  · intro hn
    subst hn
    unfold applyCallback
    rw [hrc, if_pos rfl]
    exact ⟨rfl, rfl⟩
  · intro hn
    unfold applyCallback
    rw [hrc, if_neg (by simp [hn])]
    exact ⟨rfl, rfl⟩

/-- Witness for C1: a one-record store whose pending request carries
correlation id `REF1`; result code 0 completes it, result code 1 fails it
with `status` untouched. -/
theorem C1_callback_reconciliation_witness :
    (mpesaCallback [srPending1] ⟨some ⟨some cb0⟩⟩).statusCode = 200 ∧
    (applyCallback cb0 srPending1).paymentStatus = "completed" ∧
    (applyCallback cb0 srPending1).status = "processing" ∧
    (applyCallback cb1 srPending1).paymentStatus = "failed" ∧
    (applyCallback cb1 srPending1).status = srPending1.status := by
  have h0 := C1_callback_reconciliation [srPending1] cb0 srPending1 0 rfl
    (by decide)
  have h1 := C1_callback_reconciliation [srPending1] cb1 srPending1 1 rfl
    (by decide)
  exact ⟨h0.1, (h0.2.2.1 rfl).1, (h0.2.2.1 rfl).2,
    (h1.2.2.2 (by decide)).1, (h1.2.2.2 (by decide)).2⟩

/-- Claim C7: callback reconciliation is idempotent — replaying any request
body against the store the first application produced leaves the store
exactly as after the first application. -/
theorem C7_callback_idempotent (store : List ServiceRequest)
    (req : CallbackReq) :
    (mpesaCallback (mpesaCallback store req).store req).store =
      (mpesaCallback store req).store := by
  obtain ⟨bod⟩ := req
  match bod with
  | none => rfl
  | some ⟨none⟩ => rfl
  | some ⟨some cb⟩ =>
    cases hfind : findOneByRef cb.CheckoutRequestID store with
    | none =>
      have h1 : mpesaCallback store ⟨some ⟨some cb⟩⟩ = ⟨404, store⟩ := by
        rw [mpesaCallback_reduce, hfind]
      rw [h1, h1]
    | some x =>
      have hpx : refMatches cb.CheckoutRequestID x = true :=
        List.find?_some hfind
      have hpfx := refMatches_applyCallback cb.CheckoutRequestID cb x hpx
      have h1 : mpesaCallback store ⟨some ⟨some cb⟩⟩ =
          ⟨200, updateFirst (refMatches cb.CheckoutRequestID)
                  (applyCallback cb) store⟩ := by
        rw [mpesaCallback_reduce, hfind]
      have hfind2 : findOneByRef cb.CheckoutRequestID
          (updateFirst (refMatches cb.CheckoutRequestID)
            (applyCallback cb) store) = some (applyCallback cb x) :=
        find?_updateFirst _ _ _ _ hfind hpfx
      have h2 : mpesaCallback
          (updateFirst (refMatches cb.CheckoutRequestID)
            (applyCallback cb) store) ⟨some ⟨some cb⟩⟩ =
          ⟨200, updateFirst (refMatches cb.CheckoutRequestID)
                  (applyCallback cb)
                  (updateFirst (refMatches cb.CheckoutRequestID)
                    (applyCallback cb) store)⟩ := by
        rw [mpesaCallback_reduce, hfind2]
      rw [h1, h2]
      exact updateFirst_idem _ _ _
        (fun y hy => refMatches_applyCallback _ cb y hy)
        (applyCallback_idem cb)

/-- Claim C10: the reconciler compares the result code with strict equality
against the number 0 — after a matched callback, exactly the value
`JVal.num 0` yields `"completed"`; every other value, the string `"0"`
included, yields `"failed"`. -/
theorem C10_strict_zero_comparison (store : List ServiceRequest)
    (cb : StkCallback) (sr : ServiceRequest)
    (hfind : findOneByRef cb.CheckoutRequestID store = some sr) :
    findOneByRef cb.CheckoutRequestID
        (mpesaCallback store ⟨some ⟨some cb⟩⟩).store =
      some (applyCallback cb sr) ∧
    (cb.ResultCode = JVal.num 0 →
      (applyCallback cb sr).paymentStatus = "completed") ∧
    (cb.ResultCode ≠ JVal.num 0 →
      (applyCallback cb sr).paymentStatus = "failed") := by
  have hpx : refMatches cb.CheckoutRequestID sr = true := List.find?_some hfind
  have hpfx := refMatches_applyCallback cb.CheckoutRequestID cb sr hpx
  refine ⟨?_, ?_, ?_⟩
  · rw [mpesaCallback_reduce, hfind]
    exact find?_updateFirst _ _ _ _ hfind hpfx
  · intro h
    unfold applyCallback
    rw [if_pos h]
  · intro h
    unfold applyCallback
    rw [if_neg h]

/-- Witness for C10: a callback whose result code is the string `"0"` is
treated as failure on a matched record; the numeric 0 completes it. -/
theorem C10_strict_zero_comparison_witness :
    findOneByRef "REF1" (mpesaCallback [srPending1]
        ⟨some ⟨some cbStr0⟩⟩).store = some (applyCallback cbStr0 srPending1) ∧
    (applyCallback cbStr0 srPending1).paymentStatus = "failed" ∧
    (applyCallback cb0 srPending1).paymentStatus = "completed" := by
  have hs := C10_strict_zero_comparison [srPending1] cbStr0 srPending1
    (by decide)
  have hn := C10_strict_zero_comparison [srPending1] cb0 srPending1
    (by decide)
  exact ⟨hs.1, hs.2.2 (by decide), hn.2.1 rfl⟩

/-- Counterexample to claim C3: a record whose `paymentStatus` already
left `"pending"` (it is `"completed"`) is changed again by a later matching
callback carrying result code 1 — the handler answers 200 and overwrites
`paymentStatus` to `"failed"`, contradicting the claimed once-only
transition. -/
theorem C3_counterexample :
    srCompleted1.paymentStatus = "completed" ∧
    (mpesaCallback [srCompleted1] ⟨some ⟨some cb1⟩⟩).statusCode = 200 ∧
    (mpesaCallback [srCompleted1] ⟨some ⟨some cb1⟩⟩).store.map
        (fun r => r.paymentStatus) = ["failed"] := ⟨rfl, rfl, rfl⟩

/-- Claim C3 (amended): a matched callback overwrites `paymentStatus`
unconditionally — the new value is determined solely by the result code,
regardless of the previous value, so a later callback with a different
result code can move a record that already left `"pending"` (replaying the
same payload is idempotent, see the C7 theorem); and no operation other
than the callback reconciler changes any stored record's `paymentStatus`:
payment initiation (both variants) and the status-update endpoint preserve
it for every record, and creation only appends records, each with
`paymentStatus = "pending"`. -/
theorem C3_payment_status_writes (store : List ServiceRequest)
    (cb : StkCallback) (sr : ServiceRequest)
    (hfind : findOneByRef cb.CheckoutRequestID store = some sr) :
    (findOneByRef cb.CheckoutRequestID
        (mpesaCallback store ⟨some ⟨some cb⟩⟩).store =
      some (applyCallback cb sr)) ∧
    ((applyCallback cb sr).paymentStatus =
      if cb.ResultCode = JVal.num 0 then "completed" else "failed") ∧
    (∀ (s : List ServiceRequest) (sid ph : Option String) tok push,
      (initiatePayment_server s sid ph tok push).store.map
          (fun r => r.paymentStatus) = s.map (fun r => r.paymentStatus)) ∧
    (∀ s sid ph cfg tok push,
      (initiatePayment_part001 s sid ph cfg tok push).store.map
          (fun r => r.paymentStatus) = s.map (fun r => r.paymentStatus)) ∧
    (∀ s sid st,
      (updateStatusHandler s sid st).store.map (fun r => r.paymentStatus) =
        s.map (fun r => r.paymentStatus)) ∧
    (∀ s fid db dbf b, ∃ tail,
      (serviceRequestHandler s fid db dbf b).store = s ++ tail ∧
      ∀ r ∈ tail, r.paymentStatus = "pending") := by
  have hpx : refMatches cb.CheckoutRequestID sr = true := List.find?_some hfind
  have hpfx := refMatches_applyCallback cb.CheckoutRequestID cb sr hpx
  refine ⟨?_, ?_, ?_, ?_, ?_, ?_⟩
  · rw [mpesaCallback_reduce, hfind]
    exact find?_updateFirst _ _ _ _ hfind hpfx
  · unfold applyCallback
    split <;> rfl
  · intro s sid ph tok push
    rcases initiatePayment_server_store_shape s sid ph tok push with h | ⟨c, h⟩
    · rw [h]
    · rw [h]
      exact map_updateFirst _ _ _ _ (fun x => rfl)
  · intro s sid ph cfg tok push
    rcases initiatePayment_part001_store_shape s sid ph cfg tok push with
      h | ⟨c, h⟩
    · rw [h]
    · rw [h]
      exact map_updateFirst _ _ _ _ (fun x => rfl)
  · intro s sid st
    rcases updateStatusHandler_store_shape s sid st with h | ⟨v, h⟩
    · rw [h]
    · rw [h]
      exact map_updateFirst _ _ _ _ (fun x => rfl)
  · intro s fid db dbf b
    rcases serviceRequestHandler_store_shape s fid db dbf b with h | ⟨a, _, h⟩
    · exact ⟨[], by rw [h, List.append_nil], by intro r hr; cases hr⟩
    · refine ⟨[mkServiceRequest fid b a], h, ?_⟩
      intro r hr
      rw [List.mem_singleton] at hr
      rw [hr]
      rfl

/-- Witness for C3 (amended): at the concrete completed record, the later
failure callback flips `paymentStatus` to `"failed"`. -/
theorem C3_payment_status_writes_witness :
    findOneByRef "REF1" (mpesaCallback [srCompleted1]
        ⟨some ⟨some cb1⟩⟩).store = some (applyCallback cb1 srCompleted1) ∧
    (applyCallback cb1 srCompleted1).paymentStatus = "failed" := by
  have h := C3_payment_status_writes [srCompleted1] cb1 srCompleted1
    (by decide)
  exact ⟨h.1, h.2.1.trans (by decide)⟩

/-- Counterexample to claim C8: a structurally valid callback payload whose
correlation id matches no stored record (the store is empty) is answered
with 404, not the claimed unconditional 200. -/
theorem C8_counterexample :
    (mpesaCallback [] ⟨some ⟨some cb0⟩⟩).statusCode = 404 := rfl

/-- Claim C8 (amended): a structurally valid callback payload is answered
200 — whatever its result code — exactly when its correlation id matches a
stored record; a valid payload with no match is answered 404 with the
store untouched; a payload missing `Body` or `Body.stkCallback` is
answered 400 with the store untouched. -/
theorem C8_callback_status_codes (store : List ServiceRequest)
    (cb : StkCallback) :
    ((mpesaCallback store ⟨some ⟨some cb⟩⟩).statusCode =
      if (findOneByRef cb.CheckoutRequestID store).isSome then 200
      else 404) ∧
    ((findOneByRef cb.CheckoutRequestID store).isSome = false →
      (mpesaCallback store ⟨some ⟨some cb⟩⟩).store = store) ∧
    mpesaCallback store ⟨none⟩ = ⟨400, store⟩ ∧
    mpesaCallback store ⟨some ⟨none⟩⟩ = ⟨400, store⟩ := by
  refine ⟨?_, ?_, rfl, rfl⟩
  · cases hfind : findOneByRef cb.CheckoutRequestID store with
    | none => rw [mpesaCallback_reduce, hfind]; rfl
    | some x => rw [mpesaCallback_reduce, hfind]; rfl
  · intro h
    cases hfind : findOneByRef cb.CheckoutRequestID store with
    | none => rw [mpesaCallback_reduce, hfind]
    | some x => rw [hfind] at h; cases h

/-- Witness for C8 (amended): the empty store yields 404 and no mutation
for a valid payload; a matching one-record store yields 200 even for the
business-failure code 1. -/
theorem C8_callback_status_codes_witness :
    (mpesaCallback [] ⟨some ⟨some cb0⟩⟩).statusCode = 404 ∧
    (mpesaCallback [] ⟨some ⟨some cb0⟩⟩).store = [] ∧
    (mpesaCallback [srPending1] ⟨some ⟨some cb1⟩⟩).statusCode = 200 := by
  have h1 := C8_callback_status_codes [] cb0
  have h2 := C8_callback_status_codes [srPending1] cb1
  exact ⟨h1.1.trans (by decide), h1.2.1 (by decide),
    h2.1.trans (by decide)⟩

/-- Counterexample to claim C2: no single normalizer in the code applies
all the claimed rules.  The backend auto-format — the normalization applied
before the provider call — rejects `"0712345678"` outright (the claim says
it returns `"254712345678"` rather than rejecting), because it neither
strips non-digits nor handles a leading zero; and the frontend
`formatPhoneNumber` leaves the exactly-nine-digit `"812345678"` unchanged
(the claim's rule would prepend `254`).  `normalizeSpec`, written from the
spec's words, shows what the claimed normalizer returns at both inputs. -/
theorem C2_counterexample :
    serverFormatPhone "0712345678" = none ∧
    formatPhoneNumber "812345678" = "812345678" ∧
    normalizeSpec "0712345678" = some "254712345678" ∧
    normalizeSpec "812345678" = some "254812345678" := by
  refine ⟨by decide, by decide, by decide, by decide⟩

/-- Claim C2 (amended): normalization is split across the two ends.  The
backend handler prepends `254` to an exactly-nine-digit input, passes a
`254`-plus-nine-digits input through, and rejects everything else —
including `"0712345678"` — before any provider call.  The frontend
`formatPhoneNumber` performs the stripping of non-digits and replaces a
single leading zero with `254` (so it maps `"0712345678"` to
`"254712345678"`), keeps inputs starting with `254`, and prepends `254` to
inputs starting with `7` or `1` — not to every nine-digit bare number. -/
theorem C2_normalization_split :
    (∀ s, matches9Digits s = true → serverFormatPhone s = some ("254" ++ s)) ∧
    (∀ s, matches9Digits s = false → matches254Format s = true →
      serverFormatPhone s = some s) ∧
    (∀ s, matches9Digits s = false → matches254Format s = false →
      serverFormatPhone s = none) ∧
    serverFormatPhone "0712345678" = none ∧
    (∀ s, strStartsWith (stripNonDigits s) "0" = true →
      formatPhoneNumber s = "254" ++ strDrop (stripNonDigits s) 1) ∧
    (∀ s, strStartsWith (stripNonDigits s) "0" = false →
      strStartsWith (stripNonDigits s) "254" = true →
      formatPhoneNumber s = stripNonDigits s) ∧
    (∀ s, strStartsWith (stripNonDigits s) "0" = false →
      strStartsWith (stripNonDigits s) "254" = false →
      (strStartsWith (stripNonDigits s) "7" = true ∨
        strStartsWith (stripNonDigits s) "1" = true) →
      formatPhoneNumber s = "254" ++ stripNonDigits s) ∧
    formatPhoneNumber "0712345678" = "254712345678" ∧
    formatPhoneNumber "712345678" = "254712345678" ∧
    formatPhoneNumber "254712345678" = "254712345678" ∧
    formatPhoneNumber "812345678" = "812345678" := by
  refine ⟨?_, ?_, ?_, by decide, ?_, ?_, ?_, by decide, by decide,
    by decide, by decide⟩
  · intro s h
    simp [serverFormatPhone, h]
  · intro s h9 h254
    simp [serverFormatPhone, h9, h254]
  · intro s h9 h254
    simp [serverFormatPhone, h9, h254]
  · intro s h
    simp [formatPhoneNumber, h]
  · intro s h0 h254
    simp [formatPhoneNumber, h0, h254]
  · intro s h0 h254 h71
    rcases h71 with h | h <;> simp [formatPhoneNumber, h0, h254, h]

/-- Witness for C2 (amended): the backend accepts `"713159136"` by
prepending `254`, passes `"254713159136"` through, and rejects
`"0712345678"`; the frontend maps `"0712345678"` to `"254712345678"`. -/
theorem C2_normalization_split_witness :
    serverFormatPhone "713159136" = some "254713159136" ∧
    serverFormatPhone "254713159136" = some "254713159136" ∧
    serverFormatPhone "0712345678" = none ∧
    formatPhoneNumber "0712345678" = "254712345678" := by
  have h := C2_normalization_split
  exact ⟨h.1 "713159136" (by decide),
    h.2.1 "254713159136" (by decide) (by decide),
    h.2.2.2.1, h.2.2.2.2.2.2.2.1⟩

/-- Claim C6: for a stored request whose `paymentStatus` is already
`"completed"`, an initiate-payment call naming it is rejected with 400 in
both server variants, the provider is never contacted (no token fetch, no
push), and the store is unchanged. -/
theorem C6_completed_payment_rejected (s : List ServiceRequest)
    (sid ph : Option String) (cfg : Part001Config)
    (tok : Except String (Option String)) (push : PushHttpOutcome)
    (sr : ServiceRequest)
    (hfind : s.find? (idMatches (sid.getD "")) = some sr)
    (hcomp : sr.paymentStatus = "completed") :
    initiatePayment_server s sid ph tok push = ⟨400, s, ⟨false, false⟩⟩ ∧
    initiatePayment_part001 s sid ph cfg tok push =
      ⟨400, s, ⟨false, false⟩⟩ := by
  constructor
  · unfold initiatePayment_server
    split
    · rfl
    · rw [hfind]
      simp [hcomp]
  · unfold initiatePayment_part001
    split
    · rfl
    · rw [hfind]
      simp [hcomp]

/-- Witness for C6 at the concrete completed record: 400, unchanged store,
no provider calls, in both variants. -/
theorem C6_completed_payment_rejected_witness :
    initiatePayment_server [srCompleted1] (some "id1")
        (some "254712345678") (Except.ok (some "tok"))
        (PushHttpOutcome.ok respOk0) =
      ⟨400, [srCompleted1], ⟨false, false⟩⟩ ∧
    initiatePayment_part001 [srCompleted1] (some "id1")
        (some "254712345678") ⟨true, true⟩ (Except.ok (some "tok"))
        (PushHttpOutcome.ok respOk0) =
      ⟨400, [srCompleted1], ⟨false, false⟩⟩ :=
  C6_completed_payment_rejected [srCompleted1] (some "id1")
    (some "254712345678") ⟨true, true⟩ (Except.ok (some "tok"))
    (PushHttpOutcome.ok respOk0) srCompleted1 (by decide) rfl

/-- Counterexample to claim C4: the basic variant's `initiateStkPush`
returns the provider body as success on any 2xx response without inspecting
its response code — at a body with `ResponseCode` 1 the attempt is treated
as success, the handler answers 200 and the correlation id `ws_CO_BAD` is
persisted, contradicting the claimed hard failure with nothing stored. -/
theorem C4_counterexample :
    (initiateStkPush_server (Except.ok (some "tok"))
        (PushHttpOutcome.ok respBadCode)).fst = Except.ok respBadCode ∧
    (initiatePayment_server [srPendingNoRef] (some "id1")
        (some "254712345678") (Except.ok (some "tok"))
        (PushHttpOutcome.ok respBadCode)).statusCode = 200 ∧
    (initiatePayment_server [srPendingNoRef] (some "id1")
        (some "254712345678") (Except.ok (some "tok"))
        (PushHttpOutcome.ok respBadCode)).store.map
        (fun r => r.paymentReference) = [some "ws_CO_BAD"] := by
  refine ⟨rfl, by decide, by decide⟩

/-- Claim C4 (amended): only the enhanced variant's `initiateStkPush`
interprets the provider body — it succeeds exactly when
`ResponseCode === '0' || ResponseCode === 0`, fails with a typed error
carrying the provider's message (when one is available) for any other
code, HTTP error body or missing response, and on such a failure the
initiate-payment handler persists no correlation id; the basic variant's
`initiateStkPush` returns any 2xx body as success without inspecting the
response code. -/
theorem C4_response_code_interpretation :
    (∀ (tok : Option String) (d : StkRespData),
      (initiateStkPush_part001 ⟨true, true⟩ (Except.ok tok)
          (PushHttpOutcome.ok d)).fst = Except.ok d ↔
        (d.ResponseCode = JVal.str "0" ∨ d.ResponseCode = JVal.num 0)) ∧
    (∀ (tok : Option String) (d : StkRespData),
      ¬(d.ResponseCode = JVal.str "0" ∨ d.ResponseCode = JVal.num 0) →
      (initiateStkPush_part001 ⟨true, true⟩ (Except.ok tok)
          (PushHttpOutcome.ok d)).fst = Except.error (badCodeErrorMsg d)) ∧
    (∀ (d : StkRespData) (m : String), d.errorMessage = some m →
      (m == "") = false →
      badCodeErrorMsg d = "STK Push setup error: " ++ m) ∧
    (∀ (tok : Option String) (d : StkRespData),
      (initiateStkPush_part001 ⟨true, true⟩ (Except.ok tok)
          (PushHttpOutcome.respError d)).fst =
        Except.error (pushRespErrorMsg d)) ∧
    (∀ tok : Option String,
      (initiateStkPush_part001 ⟨true, true⟩ (Except.ok tok)
          PushHttpOutcome.reqError).fst =
        Except.error "Network error: Unable to reach Safaricom servers") ∧
    (∀ (s : List ServiceRequest) (sid ph : Option String)
        (cfg : Part001Config) tok push e,
      (initiateStkPush_part001 cfg tok push).fst = Except.error e →
      (initiatePayment_part001 s sid ph cfg tok push).store = s) ∧
    (∀ (tok : Option String) (d : StkRespData),
      (initiateStkPush_server (Except.ok tok)
          (PushHttpOutcome.ok d)).fst = Except.ok d) := by
  refine ⟨?_, ?_, ?_, ?_, ?_, ?_, ?_⟩
  · intro tok d
    by_cases hc : d.ResponseCode = JVal.str "0" ∨ d.ResponseCode = JVal.num 0
    · simp [initiateStkPush_part001, hc]
    · simp [initiateStkPush_part001, hc]
  · intro tok d hc
    simp [initiateStkPush_part001, hc]
  · intro d m hm hne
    unfold badCodeErrorMsg orFalsy
    rw [hm]
    simp [hne]
  · intro tok d
    rfl
  · intro tok
    rfl
  · intro s sid ph cfg tok push e hp
    unfold initiatePayment_part001
    split
    · rfl
    · split
      · rfl
      · split
        · rfl
        · split
          · rfl
          · split
            · next d fx heq =>
              rw [heq] at hp
              cases hp
            · rfl
  · intro tok d
    rfl

/-- Witness for C4 (amended): the enhanced variant accepts the code-0
body, rejects the code-1 body with the typed message, and leaves the
store untouched on that failure. -/
theorem C4_response_code_interpretation_witness :
    (initiateStkPush_part001 ⟨true, true⟩ (Except.ok (some "tok"))
        (PushHttpOutcome.ok respOk0)).fst = Except.ok respOk0 ∧
    (initiateStkPush_part001 ⟨true, true⟩ (Except.ok (some "tok"))
        (PushHttpOutcome.ok respBadCode)).fst =
      Except.error (badCodeErrorMsg respBadCode) ∧
    (initiatePayment_part001 [srPendingNoRef] (some "id1")
        (some "254712345678") ⟨true, true⟩ (Except.ok (some "tok"))
        (PushHttpOutcome.ok respBadCode)).store = [srPendingNoRef] := by
  have h := C4_response_code_interpretation
  refine ⟨(h.1 (some "tok") respOk0).mpr (by decide),
    h.2.1 (some "tok") respBadCode (by decide), ?_⟩
  exact h.2.2.2.2.2.1 [srPendingNoRef] (some "id1") (some "254712345678")
    ⟨true, true⟩ (Except.ok (some "tok")) (PushHttpOutcome.ok respBadCode)
    (badCodeErrorMsg respBadCode)
    (h.2.1 (some "tok") respBadCode (by decide))

/-- Counterexample to claim C5: with both credentials absent, the basic
variant's `getDarajaAccessToken` still contacts the provider (the flag is
`true`) and even returns the token the provider answered with — it does
not fail closed with a credentials error. -/
theorem C5_counterexample :
    getDarajaAccessToken_server ⟨none, none⟩
        (TokenHttpOutcome.ok ⟨some "tok"⟩) =
      (Except.ok (some "tok"), true) := rfl

/-- Claim C5 (amended): only the enhanced variant fails closed — with a
missing or empty consumer key or secret it returns the credentials error
without contacting the provider, and whenever it succeeds the token is a
non-empty string; the basic variant issues the OAuth request
unconditionally, whatever the configuration. -/
theorem C5_token_fetch_credentials :
    (∀ (cfg : DarajaConfig) (resp : TokenHttpOutcome),
      (truthyOpt cfg.consumerKey = false ∨
        truthyOpt cfg.consumerSecret = false) →
      getDarajaAccessToken_part001 cfg resp =
        (Except.error "Missing Daraja API credentials. Please check DARAJA_CONSUMER_KEY and DARAJA_CONSUMER_SECRET environment variables.",
         false)) ∧
    (∀ (cfg : DarajaConfig) (resp : TokenHttpOutcome) t,
      (getDarajaAccessToken_part001 cfg resp).fst = Except.ok t →
      ∃ s, t = some s ∧ (s == "") = false) ∧
    (∀ (cfg : DarajaConfig) (resp : TokenHttpOutcome),
      (getDarajaAccessToken_server cfg resp).snd = true) := by
  refine ⟨?_, ?_, ?_⟩
  · intro cfg resp h
    rcases h with h | h <;> simp [getDarajaAccessToken_part001, h]
  · intro cfg resp t h
    unfold getDarajaAccessToken_part001 at h
    split at h
    · cases h
    · cases resp with
      | ok d =>
        cases hd : d.access_token with
        | none => simp [truthyOpt, hd] at h
        | some s =>
          by_cases hs : (s == "") = true
          · simp [truthyOpt, hd, hs] at h
          · have hs' : (s == "") = false := by
              cases hc : (s == "")
              · rfl
              · exact absurd hc hs
            simp [truthyOpt, hd, hs'] at h
            exact ⟨s, h.symm, hs'⟩
      | err m => cases h
  · intro cfg resp
    cases resp <;> rfl

/-- Witness for C5 (amended): a concrete configuration with no consumer
key fails closed without contact; the basic variant contacts anyway. -/
theorem C5_token_fetch_credentials_witness :
    getDarajaAccessToken_part001 ⟨none, some "secret"⟩
        (TokenHttpOutcome.ok ⟨some "tok"⟩) =
      (Except.error "Missing Daraja API credentials. Please check DARAJA_CONSUMER_KEY and DARAJA_CONSUMER_SECRET environment variables.",
       false) ∧
    (getDarajaAccessToken_server ⟨none, none⟩
        (TokenHttpOutcome.ok ⟨some "tok"⟩)).snd = true := by
  have h := C5_token_fetch_credentials
  exact ⟨h.1 ⟨none, some "secret"⟩ (TokenHttpOutcome.ok ⟨some "tok"⟩)
    (Or.inl (by decide)), h.2.2 ⟨none, none⟩ (TokenHttpOutcome.ok ⟨some "tok"⟩)⟩

/-- Claim C9: the amount of a request is resolved exactly once at creation
from the pricing catalog — override store first, static catalog as
fallback (also on a database read failure) — never from a client-supplied
value (the handler's result is unchanged under any `clientAmount`); and
every later operation leaves `amount` unchanged: payment initiation writes
only `paymentReference`, callback reconciliation writes only
`paymentStatus` and `status`, and the status update writes only `status`. -/
theorem C9_amount_resolution_and_frame :
    (∀ (db : List PricingEntry) (st sub : String) (p : Int),
      pricingFindOne db st sub = some p →
      resolvedAmount db false st sub = some p) ∧
    (∀ (db : List PricingEntry) (st sub : String),
      pricingFindOne db st sub = none →
      resolvedAmount db false st sub = SERVICE_PRICING st sub) ∧
    (∀ (db : List PricingEntry) (st sub : String),
      resolvedAmount db true st sub = SERVICE_PRICING st sub) ∧
    (∀ (s : List ServiceRequest) (fid : String) (db : List PricingEntry)
        (dbf : Bool) (b : SRBody),
      (serviceRequestHandler s fid db dbf b).store = s ∨
      ∃ a, resolvedAmount db dbf b.serviceType b.subService = some a ∧
        (serviceRequestHandler s fid db dbf b).store =
          s ++ [mkServiceRequest fid b a] ∧
        (mkServiceRequest fid b a).amount = a) ∧
    (∀ (s : List ServiceRequest) (fid : String) (db : List PricingEntry)
        (dbf : Bool) (b : SRBody) (c c' : Option Int),
      serviceRequestHandler s fid db dbf { b with clientAmount := c } =
        serviceRequestHandler s fid db dbf { b with clientAmount := c' }) ∧
    (∀ (s : List ServiceRequest) (sid ph : Option String) tok push,
      (initiatePayment_server s sid ph tok push).store.map
          maskPaymentReference = s.map maskPaymentReference) ∧
    (∀ (s : List ServiceRequest) (req : CallbackReq),
      (mpesaCallback s req).store.map maskOutcomeFields =
        s.map maskOutcomeFields) ∧
    (∀ (s : List ServiceRequest) (sid : String) (st : Option String),
      (updateStatusHandler s sid st).store.map maskStatus =
        s.map maskStatus) ∧
    (∀ (s : List ServiceRequest) (sid ph : Option String) tok push,
      (initiatePayment_server s sid ph tok push).store.map
          (fun r => r.amount) = s.map (fun r => r.amount)) ∧
    (∀ (s : List ServiceRequest) (req : CallbackReq),
      (mpesaCallback s req).store.map (fun r => r.amount) =
        s.map (fun r => r.amount)) ∧
    (∀ (s : List ServiceRequest) (sid : String) (st : Option String),
      (updateStatusHandler s sid st).store.map (fun r => r.amount) =
        s.map (fun r => r.amount)) := by
  refine ⟨?_, ?_, ?_, ?_, ?_, ?_, ?_, ?_, ?_, ?_, ?_⟩
  · intro db st sub p h
    simp [resolvedAmount, h]
  · intro db st sub h
    simp [resolvedAmount, h]
  · intro db st sub
    rfl
  · intro s fid db dbf b
    rcases serviceRequestHandler_store_shape s fid db dbf b with h | ⟨a, ha, h⟩
    · exact Or.inl h
    · exact Or.inr ⟨a, ha, h, rfl⟩
  · intro s fid db dbf b c c'
    rfl
  · intro s sid ph tok push
    rcases initiatePayment_server_store_shape s sid ph tok push with
      h | ⟨cid, h⟩
    · rw [h]
    · rw [h]
      exact map_updateFirst _ _ _ _ (fun x => rfl)
  · intro s req
    rcases mpesaCallback_store_shape s req with h | ⟨cb, _, h⟩
    · rw [h]
    · rw [h]
      exact map_updateFirst _ _ _ _ (fun x => applyCallback_mask cb x)
  · intro s sid st
    rcases updateStatusHandler_store_shape s sid st with h | ⟨v, h⟩
    · rw [h]
    · rw [h]
      exact map_updateFirst _ _ _ _ (fun x => rfl)
  · intro s sid ph tok push
    rcases initiatePayment_server_store_shape s sid ph tok push with
      h | ⟨cid, h⟩
    · rw [h]
    · rw [h]
      exact map_updateFirst _ _ _ _ (fun x => rfl)
  · intro s req
    rcases mpesaCallback_store_shape s req with h | ⟨cb, _, h⟩
    · rw [h]
    · rw [h]
      exact map_updateFirst _ _ _ _ (fun x => applyCallback_amount cb x)
  · intro s sid st
    rcases updateStatusHandler_store_shape s sid st with h | ⟨v, h⟩
    · rw [h]
    · rw [h]
      exact map_updateFirst _ _ _ _ (fun x => rfl)

/-- Witness for C9: a concrete override entry wins over the static
catalog; the empty override store falls back to the static price; a
concrete callback leaves the stored amount unchanged. -/
theorem C9_amount_resolution_and_frame_witness :
    resolvedAmount [pe1] false "KRA" "PIN Registration" = some 999 ∧
    resolvedAmount [] false "KRA" "PIN Registration" =
      SERVICE_PRICING "KRA" "PIN Registration" ∧
    (mpesaCallback [srPending1] ⟨some ⟨some cb0⟩⟩).store.map
        (fun r => r.amount) = [srPending1].map (fun r => r.amount) := by
  have h := C9_amount_resolution_and_frame
  exact ⟨h.1 [pe1] "KRA" "PIN Registration" 999 (by decide),
    h.2.1 [] "KRA" "PIN Registration" (by decide),
    h.2.2.2.2.2.2.2.2.2.1 [srPending1] ⟨some ⟨some cb0⟩⟩⟩

end StopperTech
